import Mathlib

/-!
Verification of the sidebar/main-content minimum-width synchronizer
(`src/themes/joelving/static/js/minWidth.js`) of the joelving/Blog repository.

The script is:

  window.onload = updateMinWidth;
  window.onresize = updateMinWidth;
  document.getElementById("sidebar").addEventListener("transitionend", updateMinWidth);
  function updateMinWidth() {
    var sidebar = document.getElementById("sidebar");
    var main = document.getElementById("main");
    main.style.minWidth = "";
    var w1 = getComputedStyle(main).getPropertyValue("min-width");
    var w2 = getComputedStyle(sidebar).getPropertyValue("width");
    var w3 = getComputedStyle(sidebar).getPropertyValue("left");
    main.style.minWidth = `calc(\x7bw1} - \x7bw2} - \x7bw3})`;
  }

We embed the DOM state the script touches: the two elements looked up by id,
their inline style declarations (maps from property name to string value,
where the empty string means "unset", as in CSSStyleDeclaration), the
browser-computed styles the script reads, and the rest of the document.
Element lookup may fail (`getElementById` returns null), and JavaScript
member access / `getComputedStyle` on null throws a TypeError; we model a
call as returning the final DOM state (mutations before a throw persist),
the ordered list of inline-style writes it performed, and the thrown error
if any.
-/

/-- The only exception the embedded code can raise: JavaScript's TypeError
from dereferencing / passing null. -/
inductive JsError where
  | typeError
deriving DecidableEq

/-- The only handler function the script registers. -/
inductive Handler where
  | updateMinWidthH
deriving DecidableEq

/-- Set property `p` to value `v` in an inline style declaration
(CSSStyleDeclaration as a map from property name to string). -/
def setProp (f : String → String) (p v : String) : String → String :=
  fun q => if q = p then v else f q

/-- The main content element (`id="main"`): its inline style declaration,
the stylesheet-intrinsic computed `min-width` measured when no inline
override is set, and the browser's resolution of a non-empty inline
override to a computed value. -/
structure MainElem where
  props : String → String
  intrinsicMinWidth : String
  resolveInline : String → String

/-- The sidebar element (`id="sidebar"`): its inline style declaration and
the browser-computed `width` and `left` the script reads. The script never
writes to the sidebar, so its computed geometry is independent state. -/
structure SidebarElem where
  props : String → String
  computedWidth : String
  computedLeft : String

/-- The DOM state the script can observe or affect: the two elements
resolved by id (`none` models `getElementById` returning null) and the
styles of every other element of the document, indexed by id then by
property name. -/
structure DomState where
  sidebar : Option SidebarElem
  main : Option MainElem
  others : String → String → String

/-- `getComputedStyle(main).getPropertyValue("min-width")`: the inline
declaration wins when set; otherwise the stylesheet-intrinsic value is
returned. -/
def computedMinWidth (m : MainElem) : String :=
  if m.props "min-width" = "" then m.intrinsicMinWidth
  else m.resolveInline (m.props "min-width")

/-- One write to the main element's inline style: property name and the
string assigned. -/
structure Write where
  prop : String
  value : String
deriving DecidableEq

/-- Result of one call to `updateMinWidth`: the DOM state when the call
returns or throws (mutations made before a throw persist), the ordered
inline-style writes performed on the main element, and the escaped
exception if any. -/
structure UpdateResult where
  dom : DomState
  writes : List Write
  err : Option JsError

/-- The template-literal composition of line 11 of `minWidth.js`. -/
def calcExpr (w1 w2 w3 : String) : String :=
  "calc(" ++ w1 ++ " - " ++ w2 ++ " - " ++ w3 ++ ")"

/-- Embedding of `updateMinWidth` (lines 4-12 of `minWidth.js`).
Both elements are re-resolved on every call. `main.style.minWidth = ""`
throws a TypeError when `main` is null; reading `w1` is side-effect free;
`getComputedStyle(sidebar)` throws a TypeError when `sidebar` is null, at
which point the clearing write to `main` has already happened. -/
def updateMinWidth (d : DomState) : UpdateResult :=
  match d.main with
  | none =>
      { dom := d, writes := [], err := some JsError.typeError }
  | some m =>
      let m1 : MainElem :=
        { m with props := setProp m.props "min-width" "" }
      let d1 : DomState := { d with main := some m1 }
      match d.sidebar with
      | none =>
          { dom := d1
            writes := [{ prop := "min-width", value := "" }]
            err := some JsError.typeError }
      | some s =>
          let w1 := computedMinWidth m1
          let w2 := s.computedWidth
          let w3 := s.computedLeft
          let m2 : MainElem :=
            { m1 with props := setProp m1.props "min-width" (calcExpr w1 w2 w3) }
          { dom := { d with main := some m2 }
            writes := [{ prop := "min-width", value := "" },
                       { prop := "min-width", value := calcExpr w1 w2 w3 }]
            err := none }

/-- The main element's current inline `min-width` declaration, when the
element exists. -/
def appliedMinWidth (d : DomState) : Option String :=
  d.main.map (fun m => m.props "min-width")

/-- Window-level handler slots the script assigns (lines 1-2). -/
structure WindowState where
  onload : Option Handler
  onresize : Option Handler

/-- Result of executing the script's top level: the window handler slots,
the `transitionend` listeners attached to the sidebar, and the escaped
exception if any. -/
structure LoadResult where
  window : WindowState
  transitionListeners : List Handler
  err : Option JsError

/-- Embedding of the script's top level (lines 1-3): assign
`window.onload` and `window.onresize` (plain assignments, never throwing),
then call `addEventListener` on `document.getElementById("sidebar")`,
which throws a TypeError when the lookup returns null, in which case the
`transitionend` listener is never attached. -/
def scriptLoad (d : DomState) (w : WindowState) : LoadResult :=
  let w1 : WindowState := { w with onload := some Handler.updateMinWidthH }
  let w2 : WindowState := { w1 with onresize := some Handler.updateMinWidthH }
  match d.sidebar with
  | none =>
      { window := w2, transitionListeners := [], err := some JsError.typeError }
  | some _ =>
      { window := w2
        transitionListeners := [Handler.updateMinWidthH]
        err := none }

/-- Accumulate a decimal digit sequence into a natural number; `none` on a
non-digit character. -/
def digitsToNat : List Char → Nat → Option Nat
  | [], acc => some acc
  | c :: rest, acc =>
      if '0' ≤ c && c ≤ '9' then digitsToNat rest (10 * acc + (c.toNat - 48))
      else none

/-- Modelled from the spec: parse one CSS pixel length (an optionally
negated decimal integer followed by the unit `px`) to its number of
pixels; `none` when the operand is not a px length. -/
def parsePxChars (cs : List Char) : Option Int :=
  match cs.reverse with
  | 'x' :: 'p' :: revDigits =>
      match revDigits.reverse with
      | [] => none
      | '-' :: ds =>
          if ds.isEmpty then none
          else (digitsToNat ds 0).map (fun n => -(n : Int))
      | ds => (digitsToNat ds 0).map (fun n => (n : Int))
  | _ => none

/-- Split a character list on the separator `" - "` used between the
operands of the composed expression. -/
def splitSep : List Char → List Char → List (List Char)
  | [], acc => [acc.reverse]
  | ' ' :: '-' :: ' ' :: rest, acc => acc.reverse :: splitSep rest []
  | c :: rest, acc => splitSep rest (c :: acc)

/-- Modelled from the spec: the rendering engine's resolution of the
deferred `calc(a - b - c)` expression when all three operands are pixel
lengths. The repository contains only the string composition; the numeric
resolution is done by the browser, which the spec describes as resolving
the deferred arithmetic expression at render time. Returns `none` when
the string is not a `calc` of three px operands. -/
def evalCalcPxChars (cs : List Char) : Option Int :=
  match cs with
  | 'c' :: 'a' :: 'l' :: 'c' :: '(' :: rest =>
      match rest.reverse with
      | ')' :: innerRev =>
          match splitSep innerRev.reverse [] with
          | [a, b, c] =>
              match parsePxChars a, parsePxChars b, parsePxChars c with
              | some x, some y, some z => some (x - y - z)
              | _, _, _ => none
          | _ => none
      | _ => none
  | _ => none

/-- Modelled from the spec: `parsePxChars` on a string's characters. -/
def parsePx (s : String) : Option Int := parsePxChars s.data

/-- Modelled from the spec: `evalCalcPxChars` on a string's characters. -/
def evalCalcPx (s : String) : Option Int := evalCalcPxChars s.data

/-- Replace the sidebar's computed width (the geometry change between two
calls in the override-clearing scenario). -/
def setSidebarWidth (d : DomState) (w : String) : DomState :=
  { d with sidebar := d.sidebar.map (fun s => { s with computedWidth := w }) }

/-! ### Concrete DOM states used as witnesses -/

/-- An inline style declaration with every property unset. -/
def emptyProps : String → String := fun _ => ""

/-- A main element with intrinsic min-width `600px` and a stale inline
override `5px` already applied. -/
def mainExample : MainElem :=
  { props := setProp emptyProps "min-width" "5px"
    intrinsicMinWidth := "600px"
    resolveInline := fun v => v }

/-- An expanded sidebar: width `240px`, left `0px`. -/
def sidebarExample : SidebarElem :=
  { props := emptyProps
    computedWidth := "240px"
    computedLeft := "0px" }

/-- Both elements resolvable, sidebar expanded. -/
def domExample : DomState :=
  { sidebar := some sidebarExample
    main := some mainExample
    others := fun _ _ => "" }

/-- The sidebar element is absent; the main element is present with a
stale inline override. -/
def domNoSidebar : DomState :=
  { sidebar := none
    main := some mainExample
    others := fun _ _ => "" }

/-- A collapsed sidebar slid fully off-screen: width `240px`,
left `-240px`. -/
def sidebarCollapsed : SidebarElem :=
  { props := emptyProps
    computedWidth := "240px"
    computedLeft := "-240px" }

/-- Both elements resolvable, sidebar collapsed. -/
def domCollapsed : DomState :=
  { sidebar := some sidebarCollapsed
    main := some mainExample
    others := fun _ _ => "" }

/-- A main element whose computed min-width is not a length. -/
def mainGarbage : MainElem :=
  { props := emptyProps
    intrinsicMinWidth := "not-a-length"
    resolveInline := fun v => v }

/-- A sidebar whose computed width and left are not lengths. -/
def sidebarGarbage : SidebarElem :=
  { props := emptyProps
    computedWidth := "banana"
    computedLeft := "12em garbage" }

/-- Both elements resolvable, all three measurements malformed. -/
def domGarbage : DomState :=
  { sidebar := some sidebarGarbage
    main := some mainGarbage
    others := fun _ _ => "" }

/-- A main element like `mainExample` but carrying a different stale
override, used to show independence from the previous override. -/
def mainOtherOverride : MainElem :=
  { props := setProp emptyProps "min-width" "calc(999px - 1px - 1px)"
    intrinsicMinWidth := "600px"
    resolveInline := fun v => v }

/-- Same geometry as `domExample`, different stale override. -/
def domOtherOverride : DomState :=
  { sidebar := some sidebarExample
    main := some mainOtherOverride
    others := fun _ _ => "" }

/-! ### The behaviour of one call when both elements resolve -/

/-- The main element as a successful call leaves it: the inline
`min-width` was cleared and then set to the composed expression over the
intrinsic min-width and the sidebar geometry. -/
def postMain (m : MainElem) (s : SidebarElem) : MainElem :=
  { m with props := setProp (setProp m.props "min-width" "") "min-width" (calcExpr m.intrinsicMinWidth s.computedWidth s.computedLeft) }

/-- When both elements resolve, one call clears the inline `min-width`,
measures the intrinsic value (the cleared declaration no longer masks
it), and installs the composed `calc` expression; no error is raised and
the write log records the clear followed by the install. -/
theorem updateMinWidth_some_some (d : DomState) (m : MainElem) (s : SidebarElem)
    (hm : d.main = some m) (hs : d.sidebar = some s) :
    updateMinWidth d =
      { dom := { d with main := some (postMain m s) }
        writes := [{ prop := "min-width", value := "" },
                   { prop := "min-width", value := calcExpr m.intrinsicMinWidth s.computedWidth s.computedLeft }]
        err := none } := by
  simp [updateMinWidth, hm, hs, computedMinWidth, setProp, postMain]

/-- The inline `min-width` left behind by a successful call. -/
theorem appliedMinWidth_update (d : DomState) (m : MainElem) (s : SidebarElem)
    (hm : d.main = some m) (hs : d.sidebar = some s) :
    appliedMinWidth (updateMinWidth d).dom
      = some (calcExpr m.intrinsicMinWidth s.computedWidth s.computedLeft) := by
  rw [updateMinWidth_some_some d m s hm hs]
  simp [appliedMinWidth, postMain, setProp]

/-! ### Claims -/

/-- Claim C1 is false on the code: at a concrete DOM state where the main
element is present (carrying a stale `5px` inline override) and the
sidebar element is absent, invoking `updateMinWidth` is not a no-op — it
is not the case that the main element's inline `min-width` is left
unmodified and no exception escapes the call. -/
theorem C1_counterexample :
    ¬ ((updateMinWidth domNoSidebar).err = none ∧
       appliedMinWidth (updateMinWidth domNoSidebar).dom = appliedMinWidth domNoSidebar) := by
  decide

/-- Claim C1 (amended): when either element is unresolvable, the call is
not a silent no-op but throws a TypeError. If the main element is absent,
nothing is modified and the TypeError escapes; if the main element is
present and the sidebar element is absent, the call first clears the main
element's inline `min-width` (a visible modification) and then the
TypeError escapes, before any composed expression is applied. -/
theorem C1_missing_element_throws (d : DomState) :
    (d.main = none →
      updateMinWidth d = { dom := d, writes := [], err := some JsError.typeError }) ∧
    (∀ m : MainElem, d.main = some m → d.sidebar = none →
      updateMinWidth d =
        { dom := { d with main := some { m with props := setProp m.props "min-width" "" } }
          writes := [{ prop := "min-width", value := "" }]
          err := some JsError.typeError }) := by
  constructor
  · intro h
    simp [updateMinWidth, h]
  · intro m hm hs
    simp [updateMinWidth, hm, hs]

/-- Witness for the amended claim C1 at the concrete sidebar-less state. -/
theorem C1_missing_element_throws_witness :
    updateMinWidth domNoSidebar =
      { dom := { domNoSidebar with main := some { mainExample with props := setProp mainExample.props "min-width" "" } }
        writes := [{ prop := "min-width", value := "" }]
        err := some JsError.typeError } :=
  (C1_missing_element_throws domNoSidebar).2 mainExample rfl rfl

/-- Claim C9: if no element with id "sidebar" exists when the script first
executes, the top level throws a TypeError at load time from calling
`addEventListener` on the null lookup result, so the `transitionend`
handler is never attached — while the `window.onload` and `window.onresize`
handlers, registered before that line, are already in place. -/
theorem C9_load_throws_without_sidebar (d : DomState) (w : WindowState)
    (h : d.sidebar = none) :
    scriptLoad d w =
      { window := { onload := some Handler.updateMinWidthH, onresize := some Handler.updateMinWidthH }
        transitionListeners := []
        err := some JsError.typeError } := by
  simp [scriptLoad, h]

/-- Witness for claim C9 at the concrete sidebar-less state with both
window slots initially empty. -/
theorem C9_load_throws_without_sidebar_witness :
    scriptLoad domNoSidebar { onload := none, onresize := none } =
      { window := { onload := some Handler.updateMinWidthH, onresize := some Handler.updateMinWidthH }
        transitionListeners := []
        err := some JsError.typeError } :=
  C9_load_throws_without_sidebar domNoSidebar { onload := none, onresize := none } rfl

/-- Claim C2: every call clears the previously applied inline override
before reading the computed min-width, so the measured value is the
stylesheet-intrinsic one; after a call with sidebar width W1 followed by
a change of the sidebar width to W2 and a second call, the applied
minimum width is a function of W2, the intrinsic min-width and the left
offset only — never of W1. -/
theorem C2_override_cleared (d : DomState) (m : MainElem) (s : SidebarElem)
    (hm : d.main = some m) (hs : d.sidebar = some s) (wNew : String) :
    appliedMinWidth (updateMinWidth d).dom
        = some (calcExpr m.intrinsicMinWidth s.computedWidth s.computedLeft) ∧
    appliedMinWidth (updateMinWidth (setSidebarWidth (updateMinWidth d).dom wNew)).dom
        = some (calcExpr m.intrinsicMinWidth wNew s.computedLeft) := by
  refine ⟨appliedMinWidth_update d m s hm hs, ?_⟩
  have hmain1 : (setSidebarWidth (updateMinWidth d).dom wNew).main = some (postMain m s) := by
    rw [updateMinWidth_some_some d m s hm hs]
    simp [setSidebarWidth]
  have hside1 : (setSidebarWidth (updateMinWidth d).dom wNew).sidebar
      = some { s with computedWidth := wNew } := by
    rw [updateMinWidth_some_some d m s hm hs]
    simp [setSidebarWidth, hs]
  rw [appliedMinWidth_update _ (postMain m s) { s with computedWidth := wNew } hmain1 hside1]
  simp [postMain]

/-- Witness for claim C2: with geometry 600px/240px/0px and a stale `5px`
override, a first call applies the 240px expression; shrinking the
sidebar to 64px and calling again applies the 64px expression, untouched
by the first result. -/
theorem C2_override_cleared_witness :
    appliedMinWidth (updateMinWidth domExample).dom = some "calc(600px - 240px - 0px)" ∧
    appliedMinWidth (updateMinWidth (setSidebarWidth (updateMinWidth domExample).dom "64px")).dom
      = some "calc(600px - 64px - 0px)" := by
  have h := C2_override_cleared domExample mainExample sidebarExample rfl rfl "64px"
  exact ⟨by rw [h.1]; rfl, by rw [h.2]; rfl⟩

/-- Claim C3: when both elements resolve, the call sets the main
element's inline min-width to the deferred calc-style expression over the
three measured strings, each embedded verbatim with its unit. -/
theorem C3_composed_expression (d : DomState) (m : MainElem) (s : SidebarElem)
    (hm : d.main = some m) (hs : d.sidebar = some s) :
    appliedMinWidth (updateMinWidth d).dom =
      some ("calc(" ++ m.intrinsicMinWidth ++ " - " ++ s.computedWidth ++ " - " ++ s.computedLeft ++ ")") := by
  rw [appliedMinWidth_update d m s hm hs]
  rfl

/-- Witness for claim C3 at the expanded-sidebar state. -/
theorem C3_composed_expression_witness :
    appliedMinWidth (updateMinWidth domExample).dom = some "calc(600px - 240px - 0px)" := by
  rw [C3_composed_expression domExample mainExample sidebarExample rfl rfl]
  rfl

/-- Claim C4: the call is idempotent and deterministic with respect to
DOM geometry — invoking it twice in succession applies the same
min-width expression both times, and any two states with the same
geometry (whatever override was previously applied) receive the same
expression. -/
theorem C4_idempotent (d : DomState) (m : MainElem) (s : SidebarElem)
    (hm : d.main = some m) (hs : d.sidebar = some s) :
    appliedMinWidth (updateMinWidth (updateMinWidth d).dom).dom
        = appliedMinWidth (updateMinWidth d).dom ∧
    (∀ e : DomState, ∀ m2 : MainElem, ∀ s2 : SidebarElem,
      e.main = some m2 → e.sidebar = some s2 →
      m2.intrinsicMinWidth = m.intrinsicMinWidth →
      s2.computedWidth = s.computedWidth →
      s2.computedLeft = s.computedLeft →
      appliedMinWidth (updateMinWidth e).dom = appliedMinWidth (updateMinWidth d).dom) := by
  have hmain1 : (updateMinWidth d).dom.main = some (postMain m s) := by
    rw [updateMinWidth_some_some d m s hm hs]
  have hside1 : (updateMinWidth d).dom.sidebar = some s := by
    rw [updateMinWidth_some_some d m s hm hs]
    exact hs
  constructor
  · rw [appliedMinWidth_update _ (postMain m s) s hmain1 hside1,
        appliedMinWidth_update d m s hm hs]
    simp [postMain]
  · intro e m2 s2 hm2 hs2 hI hW hL
    rw [appliedMinWidth_update e m2 s2 hm2 hs2, appliedMinWidth_update d m s hm hs,
        hI, hW, hL]

/-- Witness for claim C4: two successive calls on the expanded state
agree, and a state with a different stale override but the same geometry
receives the same expression. -/
theorem C4_idempotent_witness :
    appliedMinWidth (updateMinWidth (updateMinWidth domExample).dom).dom
        = appliedMinWidth (updateMinWidth domExample).dom ∧
    appliedMinWidth (updateMinWidth domOtherOverride).dom
        = appliedMinWidth (updateMinWidth domExample).dom := by
  have h := C4_idempotent domExample mainExample sidebarExample rfl rfl
  exact ⟨h.1, h.2 domOtherOverride mainOtherOverride sidebarExample rfl rfl rfl rfl rfl⟩

/-- Claim C5: with sidebar width 240px, sidebar left 0px and intrinsic
min-width 600px, the applied override resolves to an effective minimum
width of 360 pixels. -/
theorem C5_expanded_scenario (d : DomState) (m : MainElem) (s : SidebarElem)
    (hm : d.main = some m) (hs : d.sidebar = some s)
    (h1 : m.intrinsicMinWidth = "600px") (h2 : s.computedWidth = "240px")
    (h3 : s.computedLeft = "0px") :
    (appliedMinWidth (updateMinWidth d).dom).bind evalCalcPx = some 360 := by
  rw [appliedMinWidth_update d m s hm hs, h1, h2, h3]
  decide

/-- Witness for claim C5 at the expanded-sidebar state. -/
theorem C5_expanded_scenario_witness :
    (appliedMinWidth (updateMinWidth domExample).dom).bind evalCalcPx = some 360 :=
  C5_expanded_scenario domExample mainExample sidebarExample rfl rfl rfl rfl rfl

/-- Claim C6: with the sidebar collapsed (left -240px, width 240px) and
intrinsic min-width 600px, the applied override resolves to an effective
minimum width of 600 pixels — zero net occlusion. -/
theorem C6_collapsed_scenario (d : DomState) (m : MainElem) (s : SidebarElem)
    (hm : d.main = some m) (hs : d.sidebar = some s)
    (h1 : m.intrinsicMinWidth = "600px") (h2 : s.computedWidth = "240px")
    (h3 : s.computedLeft = "-240px") :
    (appliedMinWidth (updateMinWidth d).dom).bind evalCalcPx = some 600 := by
  rw [appliedMinWidth_update d m s hm hs, h1, h2, h3]
  decide

/-- Witness for claim C6 at the collapsed-sidebar state. -/
theorem C6_collapsed_scenario_witness :
    (appliedMinWidth (updateMinWidth domCollapsed).dom).bind evalCalcPx = some 600 :=
  C6_collapsed_scenario domCollapsed mainExample sidebarCollapsed rfl rfl rfl rfl rfl

/-- Claim C7: a successful call writes only the `min-width` inline
property of the main element — the sidebar element, the rest of the
document, and every other aspect of the main element (its other inline
properties, its intrinsic min-width, its override resolution) are left
unchanged, and every entry of the write log targets `min-width`. -/
theorem C7_frame (d : DomState) (m : MainElem) (s : SidebarElem)
    (hm : d.main = some m) (hs : d.sidebar = some s) :
    (updateMinWidth d).dom.sidebar = d.sidebar ∧
    (updateMinWidth d).dom.others = d.others ∧
    (∀ w ∈ (updateMinWidth d).writes, w.prop = "min-width") ∧
    ∃ m2 : MainElem,
      (updateMinWidth d).dom.main = some m2 ∧
      m2.intrinsicMinWidth = m.intrinsicMinWidth ∧
      m2.resolveInline = m.resolveInline ∧
      ∀ p, p ≠ "min-width" → m2.props p = m.props p := by
  rw [updateMinWidth_some_some d m s hm hs]
  refine ⟨rfl, rfl, ?_, postMain m s, rfl, rfl, rfl, ?_⟩
  · intro w hw
    rcases List.mem_cons.mp hw with h | h
    · rw [h]
    · rcases List.mem_cons.mp h with h2 | h2
      · rw [h2]
      · exact absurd h2 (List.not_mem_nil w)
  · intro p hp
    simp [postMain, setProp, hp]

/-- Witness for claim C7: at the expanded state, the sidebar and the
other elements are untouched and an unrelated inline property of the
main element keeps its value. -/
theorem C7_frame_witness :
    (updateMinWidth domExample).dom.sidebar = domExample.sidebar ∧
    (updateMinWidth domExample).dom.others = domExample.others ∧
    ∃ m2 : MainElem, (updateMinWidth domExample).dom.main = some m2 ∧
      m2.props "color" = mainExample.props "color" := by
  obtain ⟨hA, hB, _, m2, hmain, _, _, hprops⟩ :=
    C7_frame domExample mainExample sidebarExample rfl rfl
  exact ⟨hA, hB, m2, hmain, hprops "color" (by decide)⟩

/-- Claim C8: every computed-style measurement string — including strings
that are not lengths — is propagated verbatim, unvalidated and unparsed,
into the composed min-width expression, and no error is raised. -/
theorem C8_verbatim (d : DomState) (m : MainElem) (s : SidebarElem)
    (hm : d.main = some m) (hs : d.sidebar = some s) :
    (updateMinWidth d).err = none ∧
    appliedMinWidth (updateMinWidth d).dom =
      some ("calc(" ++ m.intrinsicMinWidth ++ " - " ++ s.computedWidth ++ " - " ++ s.computedLeft ++ ")") := by
  constructor
  · rw [updateMinWidth_some_some d m s hm hs]
  · rw [appliedMinWidth_update d m s hm hs]
    rfl

/-- Witness for claim C8 at a state whose three measurements are not
interpretable as lengths: the call still succeeds and embeds them
verbatim. -/
theorem C8_verbatim_witness :
    (updateMinWidth domGarbage).err = none ∧
    appliedMinWidth (updateMinWidth domGarbage).dom
      = some "calc(not-a-length - banana - 12em garbage)" ∧
    parsePx "not-a-length" = none ∧ parsePx "banana" = none ∧
    parsePx "12em garbage" = none := by
  have h := C8_verbatim domGarbage mainGarbage sidebarGarbage rfl rfl
  exact ⟨h.1, by rw [h.2]; rfl, by decide, by decide, by decide⟩

/-- Claim C10: under the precondition that both elements resolve, the
call never throws whatever the three measured strings contain, performs
exactly two writes to the main element's inline min-width — first the
empty string, then the composed calc expression — and terminates with
that non-empty calc expression as the inline min-width. -/
theorem C10_total_two_writes (d : DomState) (m : MainElem) (s : SidebarElem)
    (hm : d.main = some m) (hs : d.sidebar = some s) :
    (updateMinWidth d).err = none ∧
    (updateMinWidth d).writes =
      [{ prop := "min-width", value := "" },
       { prop := "min-width", value := calcExpr m.intrinsicMinWidth s.computedWidth s.computedLeft }] ∧
    appliedMinWidth (updateMinWidth d).dom
      = some (calcExpr m.intrinsicMinWidth s.computedWidth s.computedLeft) ∧
    calcExpr m.intrinsicMinWidth s.computedWidth s.computedLeft ≠ "" := by
  refine ⟨?_, ?_, appliedMinWidth_update d m s hm hs, ?_⟩
  · rw [updateMinWidth_some_some d m s hm hs]
  · rw [updateMinWidth_some_some d m s hm hs]
  · intro hEq
    have h2 := congrArg String.data hEq
    simp [calcExpr, String.data_append] at h2

/-- Witness for claim C10 at the expanded-sidebar state. -/
theorem C10_total_two_writes_witness :
    (updateMinWidth domExample).err = none ∧
    (updateMinWidth domExample).writes =
      [{ prop := "min-width", value := "" },
       { prop := "min-width", value := calcExpr mainExample.intrinsicMinWidth sidebarExample.computedWidth sidebarExample.computedLeft }] ∧
    appliedMinWidth (updateMinWidth domExample).dom
      = some (calcExpr mainExample.intrinsicMinWidth sidebarExample.computedWidth sidebarExample.computedLeft) ∧
    calcExpr mainExample.intrinsicMinWidth sidebarExample.computedWidth sidebarExample.computedLeft ≠ "" :=
  C10_total_two_writes domExample mainExample sidebarExample rfl rfl
